import Mathlib

/-!
Verification of AvisynthChecker (`src/avs_check.cpp`) via a shallow embedding.

The program probes for the Avisynth runtime DLL on Windows.  All interaction
with the operating system and with the foreign Avisynth C API is modelled by
an oracle structure (`ProbeEnv` / `RealPathEnv`) that fixes the outcome of
every external call the program can make.  The embedded functions mirror the
C control flow line by line and additionally record every observable action
(OS call, Avisynth API call, diagnostic line written to stderr) in a trace,
so that temporal claims ("X is never called after Y fails") become list
properties of the trace.

Machine doubles are modelled as `Option ℚ`: `none` stands for a NaN value
(the program only ever compares against the exactly representable 2.5, and
`isnan` is the only other operation applied, so rationals are faithful).
-/

/-- Windows ERROR_SUCCESS status code. -/
def ERROR_SUCCESS : Nat := 0

/-- Windows ERROR_INVALID_FUNCTION status code (numeric value 1). -/
def ERROR_INVALID_FUNCTION : Nat := 1

/-- Exit code: the Avisynth DLL could not be loaded. -/
def EXIT_LOAD_LIBRARY_FAILED : Int := 1

/-- Exit code: the DLL path could not be determined (name as spelled in the source). -/
def EXIT_DERTERMINE_PATH_FAILED : Int := 2

/-- Exit code: a required entry point could not be resolved. -/
def EXIT_RESOLVE_ENTRYPT_FAILED : Int := 3

/-- Exit code: the Avisynth version could not be determined or is too low. -/
def EXIT_CHECK_VERSION_FAILED : Int := 4

/-- Exit code EXIT_SUCCESS of the C runtime. -/
def EXIT_SUCCESS : Int := 0

/-- Diagnostic lines the program writes to stderr, abstracted from their
exact printf formatting. -/
inductive Line where
  | banner : Line
  | errorLoadLibrary (code : Nat) : Line
  | errorMsg (msg : String) : Line
  | errorDeterminePath (code : Nat) : Line
  | dllPath (path : List Char) : Line
  | errorResolveFunc (name : String) (code : Nat) : Line
  | errorVersion : Line
  | versionNumber (v : ℚ) : Line
  | summaryAvailable : Line
  | summaryNotAvailable : Line
  deriving DecidableEq, Repr

/-- Observable actions of a run: OS calls, Avisynth API calls and printed
diagnostic lines, in program order. -/
inductive Event where
  | osLoadLibrary (lib : String) (ok : Bool) : Event
  | osGetModuleFileName : Event
  | osGetProcAddress (lib : String) (name : String) : Event
  | osCreateFile : Event
  | osGetFinalPathName : Event
  | avsCreateEnv (ok : Bool) : Event
  | avsFunctionExists (name : String) : Event
  | avsInvoke (name : String) : Event
  | avsReleaseValue : Event
  | avsDeleteEnv : Event
  | print (l : Line) : Event
  deriving DecidableEq, Repr

/-- The `Library` wrapper class: a (possibly null) module handle plus the
last captured platform error code (`m_library`, `m_error`). The `name`
field only tags trace events with the library the handle refers to. -/
structure Library where
  name : String
  loaded : Bool
  error : Nat
  deriving DecidableEq, Repr

/-- Constructor `Library::Library`: `m_library = LoadLibraryW(name)`,
`m_error = m_library ? ERROR_SUCCESS : GetLastError()`. The oracle
arguments give the outcome of the `LoadLibraryW` call. -/
def Library.load (name : String) (osOk : Bool) (osErr : Nat) :
    Library × List Event :=
  ({ name := name, loaded := osOk,
     error := if osOk then ERROR_SUCCESS else osErr },
   [Event.osLoadLibrary name osOk])

/-- `Library::isNull`: true iff the module handle is NULL. -/
def Library.isNull (lib : Library) : Bool :=
  !lib.loaded

/-- `Library::getError`: the stored error code. -/
def Library.getError (lib : Library) : Nat :=
  lib.error

/-- `Library::getPath`: wraps `GetModuleFileNameW`. `osRet` is the value the
OS call returns (number of characters written; equals `length` when the
buffer was too small; 0 on failure), `osErr` the `GetLastError` value when
`osRet = 0`. On a null handle no OS call is made and the stored error is
set to ERROR_INVALID_FUNCTION. -/
def Library.getPath (lib : Library) (osRet : Nat) (osErr : Nat)
    (length : Nat) : Library × Bool × List Event :=
  if lib.isNull then
    ({ lib with error := ERROR_INVALID_FUNCTION }, false, [])
  else
    ({ lib with error := if osRet ≠ 0 then ERROR_SUCCESS else osErr },
     decide (0 < osRet) && decide (osRet < length),
     [Event.osGetModuleFileName])

/-- `Library::resolve`: wraps `GetProcAddress`. `osOk` tells whether the OS
lookup finds the symbol (non-null result), `osErr` the `GetLastError`
value otherwise. On a null handle no OS call is made and the stored error
is set to ERROR_INVALID_FUNCTION. -/
def Library.resolve (lib : Library) (sym : String) (osOk : Bool)
    (osErr : Nat) : Library × Bool × List Event :=
  if lib.isNull then
    ({ lib with error := ERROR_INVALID_FUNCTION }, false, [])
  else
    ({ lib with error := if osOk then ERROR_SUCCESS else osErr },
     osOk,
     [Event.osGetProcAddress lib.name sym])

/-- `get_error_string`: `FormatMessageW` plus `_wcsdup`, collapsed to an
oracle. `some msg` models a non-null buffer of positive size, `none`
models every failure of the message-formatting facility. -/
def get_error_string (fmt : Nat → Option String) (code : Nat) :
    Option String :=
  fmt code

/-- The PRINT_ERROR_MSG helper: prints the formatted system message when
`get_error_string` produced one, otherwise prints nothing. -/
def print_error_msg (fmt : Nat → Option String) (code : Nat) :
    List Event :=
  match get_error_string fmt code with
  | some msg => [Event.print (Line.errorMsg msg)]
  | none => []

/-- The `remove_ucn_prefix` helper: strips a leading `\\?\` (followed by a
drive letter and a colon) from a path, in place. -/
def remove_ucn_prefix (filePath : List Char) : List Char :=
  if (decide (6 ≤ filePath.length) &&
      decide (filePath.take 4 = ['\\', '\\', '?', '\\']) &&
      (filePath[4]?.elim false Char.isAlpha) &&
      decide (filePath[5]? = some ':')) then
    filePath.drop 4
  else
    filePath

/-- Oracle for the best-effort path canonicalization step
(`get_real_filename`): outcomes of loading kernel32, resolving
`GetFinalPathNameByHandleW`, `CreateFileW`, and the final-path call. -/
structure RealPathEnv where
  k32LoadOk : Bool
  k32LoadError : Nat
  gfpResolveOk : Bool
  gfpResolveError : Nat
  createFileOk : Bool
  gfpRet : Nat
  gfpPath : List Char
  deriving Repr

/-- `get_real_filename`: resolves `GetFinalPathNameByHandleW` from kernel32,
opens the file, and asks the OS for the canonical path. Returns `some path`
(with the UNC prefix stripped) on success, `none` when any step is
unavailable or fails. -/
def get_real_filename (rp : RealPathEnv) (_virtual_path : List Char)
    (length : Nat) : Option (List Char) × List Event :=
  let kernel32 := Library.load "kernel32" rp.k32LoadOk rp.k32LoadError
  let res := kernel32.1.resolve "GetFinalPathNameByHandleW"
    rp.gfpResolveOk rp.gfpResolveError
  if !res.2.1 then
    (none, kernel32.2 ++ res.2.2)
  else if !rp.createFileOk then
    (none, kernel32.2 ++ res.2.2 ++ [Event.osCreateFile])
  else if (decide (0 < length) && decide (rp.gfpRet < length)) then
    (some ( remove_ucn_prefix rp.gfpPath),
     kernel32.2 ++ res.2.2 ++ [Event.osCreateFile, Event.osGetFinalPathName])
  else
    (none,
     kernel32.2 ++ res.2.2 ++ [Event.osCreateFile, Event.osGetFinalPathName])

/-- Oracle fixing the outcome of every external call `check_avs_helper` can
make: loading avisynth.dll, `GetModuleFileNameW`, the canonicalization
step, `GetProcAddress` per symbol name, the message formatter, and the
behaviour of the Avisynth API itself. `invokeFloat` is the double produced
by `avs_as_float`, with `none` modelling NaN. -/
structure ProbeEnv where
  loadOk : Bool
  loadError : Nat
  pathRet : Nat
  pathError : Nat
  modulePath : List Char
  realPathEnv : RealPathEnv
  symbolOk : String → Bool
  symbolError : String → Nat
  formatMessage : Nat → Option String
  createEnvOk : Bool
  versionFuncExists : Bool
  invokeIsError : Bool
  invokeIsFloat : Bool
  invokeFloat : Option ℚ

/-- The INIT_FUNCTION helper: resolve one symbol from the library; on failure
print the error line plus the formatted system message (the caller then
returns EXIT_RESOLVE_ENTRYPT_FAILED). -/
def init_function (lib : Library) (env : ProbeEnv) (name : String) :
    Library × Bool × List Event :=
  let r := lib.resolve name (env.symbolOk name) (env.symbolError name)
  if r.2.1 then
    (r.1, true, r.2.2)
  else
    (r.1, false,
     r.2.2 ++ [Event.print (Line.errorResolveFunc name r.1.error)] ++
       print_error_msg env.formatMessage r.1.error)

/-- The avisynthVersion variable as left by the environment-probing block:
DBL_NAN (`none`) unless the environment was created, "VersionNumber"
exists, and the invocation result is a non-error float, in which case it
is the value of `avs_as_float` (which may itself be NaN). -/
def detected_version (env : ProbeEnv) : Option ℚ :=
  if env.createEnvOk && env.versionFuncExists && !env.invokeIsError &&
      env.invokeIsFloat then
    env.invokeFloat
  else
    none

/-- The minimum supported version, 2.5 (written as a quotient of integers
so that the comparison evaluates by kernel reduction). -/
def MIN_AVS_VERSION : ℚ :=
  Rat.divInt 5 2

/-- The final acceptance test `isnan(avisynthVersion) || (avisynthVersion < 2.5)`. -/
def version_check_fails (v : Option ℚ) : Bool :=
  match v with
  | none => true
  | some x => decide (x < MIN_AVS_VERSION)

/-- Trace of the environment-probing block of `check_avs_helper` (lines
273-291 of the source): create the script environment; if non-null, check
for "VersionNumber", invoke it, release the result only when it is a
non-error float, and finally delete the environment. -/
def probe_env_events (env : ProbeEnv) : List Event :=
  if env.createEnvOk then
    [Event.avsCreateEnv true] ++
    [Event.avsFunctionExists "VersionNumber"] ++
    (if env.versionFuncExists then
      [Event.avsInvoke "VersionNumber"] ++
      (if !env.invokeIsError then
        (if env.invokeIsFloat then
          (if env.symbolOk "avs_release_value" then
            [Event.avsReleaseValue]
          else [])
        else [])
      else [])
    else []) ++
    [Event.avsDeleteEnv]
  else
    [Event.avsCreateEnv false]

/-- `check_avs_helper`: the whole probe. Loads avisynth.dll, determines its
path, prints the (canonicalized when possible) path, resolves the five
required entry points in order, queries the version, and maps each
failure to its exit code. Returns the exit code and the event trace. -/
def check_avs_helper (env : ProbeEnv) : Int × List Event :=
  let avisynthLib := Library.load "avisynth" env.loadOk env.loadError
  if avisynthLib.1.isNull then
    (EXIT_LOAD_LIBRARY_FAILED,
     avisynthLib.2 ++
       [Event.print (Line.errorLoadLibrary avisynthLib.1.getError)] ++
       print_error_msg env.formatMessage avisynthLib.1.getError)
  else
    let gp := avisynthLib.1.getPath env.pathRet env.pathError 4096
    if !gp.2.1 then
      (EXIT_DERTERMINE_PATH_FAILED,
       avisynthLib.2 ++ gp.2.2 ++
         [Event.print (Line.errorDeterminePath gp.1.getError)] ++
         print_error_msg env.formatMessage gp.1.getError)
    else
      let rf := get_real_filename env.realPathEnv env.modulePath 4096
      let evDll :=
        match rf.1 with
        | some realPath => [Event.print (Line.dllPath realPath)]
        | none => [Event.print (Line.dllPath env.modulePath)]
      let evPre := avisynthLib.2 ++ gp.2.2 ++ rf.2 ++ evDll
      let f1 := init_function gp.1 env "avs_create_script_environment"
      if !f1.2.1 then
        (EXIT_RESOLVE_ENTRYPT_FAILED, evPre ++ f1.2.2)
      else
        let f2 := init_function f1.1 env "avs_delete_script_environment"
        if !f2.2.1 then
          (EXIT_RESOLVE_ENTRYPT_FAILED, evPre ++ f1.2.2 ++ f2.2.2)
        else
          let f3 := init_function f2.1 env "avs_invoke"
          if !f3.2.1 then
            (EXIT_RESOLVE_ENTRYPT_FAILED,
             evPre ++ f1.2.2 ++ f2.2.2 ++ f3.2.2)
          else
            let f4 := init_function f3.1 env "avs_function_exists"
            if !f4.2.1 then
              (EXIT_RESOLVE_ENTRYPT_FAILED,
               evPre ++ f1.2.2 ++ f2.2.2 ++ f3.2.2 ++ f4.2.2)
            else
              let f5 := init_function f4.1 env "avs_release_value"
              if !f5.2.1 then
                (EXIT_RESOLVE_ENTRYPT_FAILED,
                 evPre ++ f1.2.2 ++ f2.2.2 ++ f3.2.2 ++ f4.2.2 ++ f5.2.2)
              else
                let evMain := evPre ++ f1.2.2 ++ f2.2.2 ++ f3.2.2 ++
                  f4.2.2 ++ f5.2.2 ++ probe_env_events env
                if version_check_fails (detected_version env) then
                  (EXIT_CHECK_VERSION_FAILED,
                   evMain ++ [Event.print Line.errorVersion])
                else
                  (EXIT_SUCCESS,
                   evMain ++
                     [Event.print
                       (Line.versionNumber
                         ((detected_version env).getD 0))])

/-- `check_avs`: prints the banner, runs the probe, and prints the final
availability summary. NOTE: the source tests `if(result)`, i.e. the
"available" line is printed when the result is NONZERO (failure) and the
"*NOT* available" line when it is zero (success). The embedding preserves
this behaviour. -/
def check_avs (env : ProbeEnv) : Int × List Event :=
  let r := check_avs_helper env
  let evSummary :=
    if r.1 ≠ 0 then [Event.print Line.summaryAvailable]
    else [Event.print Line.summaryNotAvailable]
  (r.1, [Event.print Line.banner] ++ r.2 ++ evSummary)

/-- The five required Avisynth entry points, in the order the source
resolves them. -/
def AVS_SYMBOLS : List String :=
  ["avs_create_script_environment", "avs_delete_script_environment",
   "avs_invoke", "avs_function_exists", "avs_release_value"]

/-- True iff the OS lookup succeeds for all five required entry points. -/
def resolves_all (env : ProbeEnv) : Bool :=
  AVS_SYMBOLS.all env.symbolOk

/-- The names passed to `GetProcAddress` on the avisynth library handle, in
trace order. -/
def resolvedSymbols (tr : List Event) : List String :=
  tr.filterMap fun e =>
    match e with
    | Event.osGetProcAddress lib n => if lib = "avisynth" then some n else none
    | _ => none

/-- True for events that print a diagnostic line. -/
def Event.isPrint (e : Event) : Bool :=
  match e with
  | Event.print _ => true
  | _ => false

/-- Events produced by one INIT_FUNCTION expansion on the (loaded) avisynth
library: the `GetProcAddress` call, plus the error lines when the symbol
is missing. -/
def init_events (env : ProbeEnv) (n : String) : List Event :=
  [Event.osGetProcAddress "avisynth" n] ++
    (if env.symbolOk n then []
     else
       [Event.print (Line.errorResolveFunc n (env.symbolError n))] ++
         print_error_msg env.formatMessage (env.symbolError n))

/-- Events of the INIT_FUNCTION sequence: symbols are tried in order and the
sequence stops at the first one the OS lookup misses. -/
def sym_events (env : ProbeEnv) : List String → List Event
  | [] => []
  | n :: rest =>
      init_events env n ++
        (if env.symbolOk n then sym_events env rest else [])

/-- Events of the successful prefix of the probe: loading avisynth.dll,
determining its path, the canonicalization attempt, and the printed
`Avisynth_DLLPath` line. -/
def pre_events (env : ProbeEnv) : List Event :=
  [Event.osLoadLibrary "avisynth" true, Event.osGetModuleFileName] ++
    (get_real_filename env.realPathEnv env.modulePath 4096).2 ++
    [Event.print (Line.dllPath
      (((get_real_filename env.realPathEnv env.modulePath 4096).1).getD
        env.modulePath))]

/-- The `GetLastError` value stored by `Library::getPath` after the
`GetModuleFileNameW` call. -/
def path_error_code (env : ProbeEnv) : Nat :=
  if env.pathRet ≠ 0 then ERROR_SUCCESS else env.pathError

/-- Exit code of `check_avs_helper` as a function of the oracle, phase by
phase. -/
def expected_code (env : ProbeEnv) : Int :=
  if env.loadOk = false then EXIT_LOAD_LIBRARY_FAILED
  else if ¬(0 < env.pathRet ∧ env.pathRet < 4096) then
    EXIT_DERTERMINE_PATH_FAILED
  else if resolves_all env = false then EXIT_RESOLVE_ENTRYPT_FAILED
  else if version_check_fails (detected_version env) then
    EXIT_CHECK_VERSION_FAILED
  else EXIT_SUCCESS

/-- Event trace of `check_avs_helper` as a function of the oracle, phase by
phase. -/
def expected_trace (env : ProbeEnv) : List Event :=
  if env.loadOk = false then
    [Event.osLoadLibrary "avisynth" false,
     Event.print (Line.errorLoadLibrary env.loadError)] ++
      print_error_msg env.formatMessage env.loadError
  else if ¬(0 < env.pathRet ∧ env.pathRet < 4096) then
    [Event.osLoadLibrary "avisynth" true, Event.osGetModuleFileName,
     Event.print (Line.errorDeterminePath (path_error_code env))] ++
      print_error_msg env.formatMessage (path_error_code env)
  else if resolves_all env = false then
    pre_events env ++ sym_events env AVS_SYMBOLS
  else if version_check_fails (detected_version env) then
    pre_events env ++ sym_events env AVS_SYMBOLS ++ probe_env_events env ++
      [Event.print Line.errorVersion]
  else
    pre_events env ++ sym_events env AVS_SYMBOLS ++ probe_env_events env ++
      [Event.print (Line.versionNumber ((detected_version env).getD 0))]

/-- Canonicalization oracle for a run where the secondary resolution step
succeeds and reports `D:\a`. -/
def rpOk : RealPathEnv :=
  { k32LoadOk := true, k32LoadError := 0, gfpResolveOk := true,
    gfpResolveError := 0, createFileOk := true, gfpRet := 10,
    gfpPath := ['D', ':', '\\', 'a'] }

/-- Canonicalization oracle for a run where `GetFinalPathNameByHandleW`
cannot be located and `CreateFileW` would fail as well. -/
def rpFail : RealPathEnv :=
  { k32LoadOk := true, k32LoadError := 0, gfpResolveOk := false,
    gfpResolveError := 127, createFileOk := false, gfpRet := 0,
    gfpPath := [] }

/-- Oracle for a fully successful run: the DLL loads, all five symbols
resolve, the environment is created and "VersionNumber" returns the
float 2.6. -/
def envOk : ProbeEnv :=
  { loadOk := true, loadError := 0, pathRet := 4, pathError := 0,
    modulePath := ['C', ':', '\\', 'a'], realPathEnv := rpOk,
    symbolOk := fun _ => true, symbolError := fun _ => 0,
    formatMessage := fun _ => none, createEnvOk := true,
    versionFuncExists := true, invokeIsError := false,
    invokeIsFloat := true, invokeFloat := some (Rat.divInt 13 5) }

/-- Oracle for a run where `LoadLibraryW("avisynth")` fails with error 126
and the system message formatter produces a description. -/
def envLoadFail : ProbeEnv :=
  { envOk with
    loadOk := false
    loadError := 126
    formatMessage := fun _ => some "The specified module could not be found." }

/-- Oracle for a run where the avs_invoke entry point is missing from the
DLL while every other lookup would succeed. -/
def envInvokeMissing : ProbeEnv :=
  { envOk with symbolOk := fun s => s != "avs_invoke" }

/-- Oracle for a run that reports version exactly 2.5. -/
def envBoundary : ProbeEnv :=
  { envOk with invokeFloat := some (Rat.divInt 5 2) }

/-- Oracle for a run that reports version 2.45, below the minimum. -/
def envTooLow : ProbeEnv :=
  { envOk with invokeFloat := some (Rat.divInt 49 20) }

/-- Oracle for a run identical to the successful one except that the
canonicalization step fails. -/
def envCanonFail : ProbeEnv :=
  { envOk with realPathEnv := rpFail }

/-- A Library handle whose load failed. -/
def libNull : Library :=
  { name := "avisynth", loaded := false, error := 126 }

/-- Oracle for a run where environment creation returns null. -/
def envCreateFails : ProbeEnv :=
  { envOk with createEnvOk := false }

lemma helper_load_fail (env : ProbeEnv) (h : env.loadOk = false) :
    check_avs_helper env =
      (EXIT_LOAD_LIBRARY_FAILED,
       [Event.osLoadLibrary "avisynth" false,
        Event.print (Line.errorLoadLibrary env.loadError)] ++
         print_error_msg env.formatMessage env.loadError) := by
  simp [check_avs_helper, Library.load, Library.isNull, Library.getError, h]

lemma helper_path_fail (env : ProbeEnv) (h : env.loadOk = true)
    (h2 : ¬(0 < env.pathRet ∧ env.pathRet < 4096)) :
    check_avs_helper env =
      (EXIT_DERTERMINE_PATH_FAILED,
       [Event.osLoadLibrary "avisynth" true, Event.osGetModuleFileName,
        Event.print (Line.errorDeterminePath (path_error_code env))] ++
         print_error_msg env.formatMessage (path_error_code env)) := by
  have hb : (decide (0 < env.pathRet) && decide (env.pathRet < 4096)) = false := by
    simp only [Bool.and_eq_false_iff, decide_eq_false_iff_not]
    tauto
  simp [check_avs_helper, Library.load, Library.isNull, Library.getPath,
    Library.getError, h, hb, path_error_code, ERROR_SUCCESS]

lemma init_function_eq (lib : Library) (env : ProbeEnv) (n : String)
    (hl : lib.loaded = true) (hn : lib.name = "avisynth") :
    init_function lib env n =
      ({ lib with
          error := if env.symbolOk n then ERROR_SUCCESS else env.symbolError n },
       env.symbolOk n, init_events env n) := by
  cases hok : env.symbolOk n <;>
    simp [init_function, Library.resolve, Library.isNull, init_events, hl, hn, hok]

lemma helper_eq (env : ProbeEnv) :
    check_avs_helper env = (expected_code env, expected_trace env) := by
  by_cases h : env.loadOk = false
  · rw [helper_load_fail env h]
    simp [expected_code, expected_trace, h]
  · have h1 : env.loadOk = true := by simpa using h
    by_cases h2 : 0 < env.pathRet ∧ env.pathRet < 4096
    · have hb : (decide (0 < env.pathRet) && decide (env.pathRet < 4096)) = true := by
        simp [h2.1, h2.2]
      rcases h2 with ⟨h2a, h2b⟩
      by_cases s1 : env.symbolOk "avs_create_script_environment" = true
      · by_cases s2 : env.symbolOk "avs_delete_script_environment" = true
        · by_cases s3 : env.symbolOk "avs_invoke" = true
          · by_cases s4 : env.symbolOk "avs_function_exists" = true
            · by_cases s5 : env.symbolOk "avs_release_value" = true
              · by_cases hv : version_check_fails (detected_version env) = true
                · cases hrf : (get_real_filename env.realPathEnv env.modulePath 4096).1 <;>
                    simp [check_avs_helper, Library.load, Library.isNull,
                      Library.getPath, Library.getError, init_function,
                      Library.resolve, expected_code, expected_trace,
                      pre_events, sym_events, init_events, resolves_all,
                      AVS_SYMBOLS, h1, hb, h2a, h2b, s1, s2, s3, s4, s5, hv, hrf]
                · cases hrf : (get_real_filename env.realPathEnv env.modulePath 4096).1 <;>
                    simp [check_avs_helper, Library.load, Library.isNull,
                      Library.getPath, Library.getError, init_function,
                      Library.resolve, expected_code, expected_trace,
                      pre_events, sym_events, init_events, resolves_all,
                      AVS_SYMBOLS, h1, hb, h2a, h2b, s1, s2, s3, s4, s5, hv, hrf]
              · cases hrf : (get_real_filename env.realPathEnv env.modulePath 4096).1 <;>
                  simp [check_avs_helper, Library.load, Library.isNull,
                    Library.getPath, Library.getError, init_function,
                    Library.resolve, expected_code, expected_trace,
                    pre_events, sym_events, init_events, resolves_all,
                    AVS_SYMBOLS, ERROR_SUCCESS, h1, hb, h2a, h2b, s1, s2, s3, s4, s5, hrf]
            · cases hrf : (get_real_filename env.realPathEnv env.modulePath 4096).1 <;>
                simp [check_avs_helper, Library.load, Library.isNull,
                  Library.getPath, Library.getError, init_function,
                  Library.resolve, expected_code, expected_trace,
                  pre_events, sym_events, init_events, resolves_all,
                  AVS_SYMBOLS, ERROR_SUCCESS, h1, hb, h2a, h2b, s1, s2, s3, s4, hrf]
          · cases hrf : (get_real_filename env.realPathEnv env.modulePath 4096).1 <;>
              simp [check_avs_helper, Library.load, Library.isNull,
                Library.getPath, Library.getError, init_function,
                Library.resolve, expected_code, expected_trace,
                pre_events, sym_events, init_events, resolves_all,
                AVS_SYMBOLS, ERROR_SUCCESS, h1, hb, h2a, h2b, s1, s2, s3, hrf]
        · cases hrf : (get_real_filename env.realPathEnv env.modulePath 4096).1 <;>
            simp [check_avs_helper, Library.load, Library.isNull,
              Library.getPath, Library.getError, init_function,
              Library.resolve, expected_code, expected_trace,
              pre_events, sym_events, init_events, resolves_all,
              AVS_SYMBOLS, ERROR_SUCCESS, h1, hb, h2a, h2b, s1, s2, hrf]
      · cases hrf : (get_real_filename env.realPathEnv env.modulePath 4096).1 <;>
          simp [check_avs_helper, Library.load, Library.isNull,
            Library.getPath, Library.getError, init_function,
            Library.resolve, expected_code, expected_trace,
            pre_events, sym_events, init_events, resolves_all,
            AVS_SYMBOLS, ERROR_SUCCESS, h1, hb, h2a, h2b, s1, hrf]
    · rw [helper_path_fail env h1 h2]
      simp [expected_code, expected_trace, h1, h2]

lemma print_error_msg_shape (fmt : Nat → Option String) (c : Nat) :
    ∀ e ∈ print_error_msg fmt c, ∃ m, e = Event.print (Line.errorMsg m) := by
  unfold print_error_msg
  cases get_error_string fmt c <;> simp

lemma grf_events_shape (rp : RealPathEnv) (vp : List Char) (len : Nat) :
    ∀ e ∈ (get_real_filename rp vp len).2,
      e = Event.osLoadLibrary "kernel32" rp.k32LoadOk ∨
      e = Event.osGetProcAddress "kernel32" "GetFinalPathNameByHandleW" ∨
      e = Event.osCreateFile ∨ e = Event.osGetFinalPathName := by
  intro e he
  cases hk : rp.k32LoadOk <;> cases hg : rp.gfpResolveOk <;>
    cases hcf : rp.createFileOk <;>
    by_cases hr : (0 < len ∧ rp.gfpRet < len) <;>
    simp [get_real_filename, Library.load, Library.resolve, Library.isNull,
      hk, hg, hcf, hr] at he <;>
    tauto

lemma init_events_shape (env : ProbeEnv) (n : String) :
    ∀ e ∈ init_events env n,
      e = Event.osGetProcAddress "avisynth" n ∨ e.isPrint = true := by
  intro e he
  cases hok : env.symbolOk n <;> simp [init_events, hok] at he
  · rcases he with rfl | rfl | he
    · left; rfl
    · right; rfl
    · rcases print_error_msg_shape _ _ _ he with ⟨m, rfl⟩
      right; rfl
  · subst he
    left; rfl

lemma sym_events_shape (env : ProbeEnv) (names : List String) :
    ∀ e ∈ sym_events env names,
      (∃ n ∈ names, e = Event.osGetProcAddress "avisynth" n) ∨
        e.isPrint = true := by
  induction names with
  | nil => simp [sym_events]
  | cons n rest ih =>
      intro e he
      simp only [sym_events] at he
      rcases List.mem_append.mp he with h1 | h2
      · rcases init_events_shape env n e h1 with rfl | hp
        · exact Or.inl ⟨n, by simp, rfl⟩
        · exact Or.inr hp
      · cases hok : env.symbolOk n <;> simp [hok] at h2
        rcases ih e h2 with ⟨m, hm, rfl⟩ | hp
        · exact Or.inl ⟨m, by simp [hm], rfl⟩
        · exact Or.inr hp

lemma resolvedSymbols_append (a b : List Event) :
    resolvedSymbols (a ++ b) = resolvedSymbols a ++ resolvedSymbols b := by
  simp [resolvedSymbols]

lemma resolvedSymbols_nil (tr : List Event)
    (h : ∀ n, Event.osGetProcAddress "avisynth" n ∉ tr) :
    resolvedSymbols tr = [] := by
  rw [resolvedSymbols, List.filterMap_eq_nil_iff]
  intro e he
  cases e <;> simp
  next lib n =>
    intro hlib
    subst hlib
    exact absurd he (h n)

lemma grf_resolvedSymbols (rp : RealPathEnv) (vp : List Char) (len : Nat) :
    resolvedSymbols (get_real_filename rp vp len).2 = [] := by
  apply resolvedSymbols_nil
  intro n hn
  rcases grf_events_shape rp vp len _ hn with h | h | h | h <;> simp_all

lemma grf_no_avs (rp : RealPathEnv) (vp : List Char) (len : Nat) :
    (∀ b, Event.avsCreateEnv b ∉ (get_real_filename rp vp len).2) ∧
      Event.avsDeleteEnv ∉ (get_real_filename rp vp len).2 ∧
      Event.avsReleaseValue ∉ (get_real_filename rp vp len).2 ∧
      (∀ l, Event.print l ∉ (get_real_filename rp vp len).2) ∧
      Event.osGetModuleFileName ∉ (get_real_filename rp vp len).2 := by
  refine ⟨fun b hb => ?_, fun hb => ?_, fun hb => ?_, fun l hb => ?_, fun hb => ?_⟩ <;>
    rcases grf_events_shape rp vp len _ hb with h | h | h | h <;> simp_all

lemma pre_events_no_avs (env : ProbeEnv) :
    (∀ b, Event.avsCreateEnv b ∉ pre_events env) ∧
      Event.avsDeleteEnv ∉ pre_events env ∧
      Event.avsReleaseValue ∉ pre_events env := by
  obtain ⟨hg1, hg2, hg3, hg4, hg5⟩ :=
    grf_no_avs env.realPathEnv env.modulePath 4096
  refine ⟨fun b => ?_, ?_, ?_⟩
  · simp [pre_events, hg1 b]
  · simp [pre_events, hg2]
  · simp [pre_events, hg3]

lemma sym_events_no_avs (env : ProbeEnv) (names : List String) :
    (∀ b, Event.avsCreateEnv b ∉ sym_events env names) ∧
      Event.avsDeleteEnv ∉ sym_events env names ∧
      Event.avsReleaseValue ∉ sym_events env names := by
  refine ⟨fun b hb => ?_, fun hb => ?_, fun hb => ?_⟩ <;>
    rcases sym_events_shape env names _ hb with ⟨n, hn, h⟩ | h <;>
      simp_all [Event.isPrint]

lemma print_error_msg_no_avs (fmt : Nat → Option String) (c : Nat) :
    (∀ b, Event.avsCreateEnv b ∉ print_error_msg fmt c) ∧
      Event.avsDeleteEnv ∉ print_error_msg fmt c ∧
      Event.avsReleaseValue ∉ print_error_msg fmt c := by
  refine ⟨fun b hb => ?_, fun hb => ?_, fun hb => ?_⟩ <;>
    rcases print_error_msg_shape fmt c _ hb with ⟨m, h⟩ <;> simp_all

lemma probe_env_events_counts (env : ProbeEnv) :
    (probe_env_events env).count Event.avsDeleteEnv =
        (probe_env_events env).count (Event.avsCreateEnv true) ∧
      (probe_env_events env).count (Event.avsCreateEnv true) ≤ 1 := by
  cases hc : env.createEnvOk <;> cases hf : env.versionFuncExists <;>
    cases he : env.invokeIsError <;> cases hfl : env.invokeIsFloat <;>
    cases hr : env.symbolOk "avs_release_value" <;>
    simp [probe_env_events, hc, hf, he, hfl, hr, List.count_cons,
      List.count_append]

lemma probe_env_events_release (env : ProbeEnv) :
    Event.avsReleaseValue ∈ probe_env_events env ↔
      (env.createEnvOk = true ∧ env.versionFuncExists = true ∧
        env.invokeIsError = false ∧ env.invokeIsFloat = true ∧
        env.symbolOk "avs_release_value" = true) := by
  cases hc : env.createEnvOk <;> cases hf : env.versionFuncExists <;>
    cases he : env.invokeIsError <;> cases hfl : env.invokeIsFloat <;>
    cases hr : env.symbolOk "avs_release_value" <;>
    simp [probe_env_events, hc, hf, he, hfl, hr]

/-- C5: on every path through the probe, the script environment is deleted
exactly once when its creation returned non-null, and the deletion is
skipped exactly when creation returned null: the number of
delete-environment calls always equals the number of successful
environment creations, which is at most one. -/
theorem avs_env_released_exactly_once (env : ProbeEnv) :
    (check_avs_helper env).2.count Event.avsDeleteEnv =
        (check_avs_helper env).2.count (Event.avsCreateEnv true) ∧
      (check_avs_helper env).2.count (Event.avsCreateEnv true) ≤ 1 := by
  have hpre := pre_events_no_avs env
  have hsym := sym_events_no_avs env AVS_SYMBOLS
  have hp := probe_env_events_counts env
  rw [helper_eq]
  simp only [expected_trace]
  split
  · have hpem := print_error_msg_no_avs env.formatMessage env.loadError
    simp [List.count_append, List.count_eq_zero.mpr hpem.2.1,
      List.count_eq_zero.mpr (hpem.1 true)]
  split
  · have hpem := print_error_msg_no_avs env.formatMessage (path_error_code env)
    simp [List.count_append, List.count_eq_zero.mpr hpem.2.1,
      List.count_eq_zero.mpr (hpem.1 true)]
  split
  · simp [List.count_append, List.count_eq_zero.mpr hpre.2.1,
      List.count_eq_zero.mpr (hpre.1 true),
      List.count_eq_zero.mpr hsym.2.1,
      List.count_eq_zero.mpr (hsym.1 true)]
  split
  · simp [List.count_append, List.count_eq_zero.mpr hpre.2.1,
      List.count_eq_zero.mpr (hpre.1 true),
      List.count_eq_zero.mpr hsym.2.1,
      List.count_eq_zero.mpr (hsym.1 true), hp.1, hp.2]
  · simp [List.count_append, List.count_eq_zero.mpr hpre.2.1,
      List.count_eq_zero.mpr (hpre.1 true),
      List.count_eq_zero.mpr hsym.2.1,
      List.count_eq_zero.mpr (hsym.1 true), hp.1, hp.2]

/-- C10: avs_release_value is only ever invoked when the result of the
VersionNumber invocation is a non-error float value. -/
theorem avs_release_only_float (env : ProbeEnv)
    (h : Event.avsReleaseValue ∈ (check_avs_helper env).2) :
    env.invokeIsError = false ∧ env.invokeIsFloat = true := by
  have hpre := (pre_events_no_avs env).2.2
  have hsym := (sym_events_no_avs env AVS_SYMBOLS).2.2
  rw [helper_eq] at h
  simp only [expected_trace] at h
  split at h
  · simp [(print_error_msg_no_avs env.formatMessage env.loadError).2.2] at h
  split at h
  · simp [(print_error_msg_no_avs env.formatMessage
      (path_error_code env)).2.2] at h
  split at h
  · simp [hpre, hsym] at h
  split at h
  · simp only [List.append_assoc, List.mem_append, List.mem_singleton] at h
    rcases h with h | h | h | h
    · exact absurd h hpre
    · exact absurd h hsym
    · have := (probe_env_events_release env).mp h
      exact ⟨this.2.2.1, this.2.2.2.1⟩
    · simp at h
  · simp only [List.append_assoc, List.mem_append, List.mem_singleton] at h
    rcases h with h | h | h | h
    · exact absurd h hpre
    · exact absurd h hsym
    · have := (probe_env_events_release env).mp h
      exact ⟨this.2.2.1, this.2.2.2.1⟩
    · simp at h

/-- Witness for C10: in the fully successful run the release call does
occur, and the theorem applies to it. -/
theorem avs_release_only_float_witness :
    envOk.invokeIsError = false ∧ envOk.invokeIsFloat = true :=
  avs_release_only_float envOk (by decide)

/-- C2: once the probe reaches the version phase, it succeeds exactly when
the detected version is a determined (non-NaN) value of at least 2.5;
the boundary 2.5 itself succeeds, anything below fails, an undetermined
version (including the null-environment case) fails. -/
theorem avs_version_acceptance (env : ProbeEnv)
    (h1 : env.loadOk = true) (h2 : 0 < env.pathRet)
    (h3 : env.pathRet < 4096) (hall : resolves_all env = true) :
    MIN_AVS_VERSION = (2.5 : ℚ) ∧
      ((check_avs_helper env).1 = EXIT_SUCCESS ↔
        ∃ q, detected_version env = some q ∧ MIN_AVS_VERSION ≤ q) ∧
      (detected_version env = none →
        (check_avs_helper env).1 = EXIT_CHECK_VERSION_FAILED) ∧
      (∀ q, detected_version env = some q → q < MIN_AVS_VERSION →
        (check_avs_helper env).1 = EXIT_CHECK_VERSION_FAILED) ∧
      (detected_version env = some MIN_AVS_VERSION →
        (check_avs_helper env).1 = EXIT_SUCCESS) ∧
      (env.createEnvOk = false →
        (check_avs_helper env).1 = EXIT_CHECK_VERSION_FAILED) := by
  refine ⟨by norm_num [MIN_AVS_VERSION, Rat.divInt_eq_div], ?_⟩
  rw [helper_eq]
  simp only [expected_code, h1, h2, h3, hall]
  cases hdv : detected_version env with
  | none =>
      refine ⟨?_, fun _ => ?_, fun q hq hl => ?_, fun hq => ?_, fun _ => ?_⟩
      · simp +decide [version_check_fails, EXIT_SUCCESS,
          EXIT_CHECK_VERSION_FAILED]
      · simp [version_check_fails, EXIT_CHECK_VERSION_FAILED]
      · simp [version_check_fails, EXIT_CHECK_VERSION_FAILED]
      · exact absurd hq (by simp)
      · simp [version_check_fails, EXIT_CHECK_VERSION_FAILED]
  | some q =>
      by_cases hlt : q < MIN_AVS_VERSION
      · refine ⟨?_, fun hn => ?_, fun q' hq' hlt' => ?_, fun hq => ?_,
          fun hc => ?_⟩
        · simp +decide [version_check_fails, hlt, EXIT_SUCCESS,
            EXIT_CHECK_VERSION_FAILED, not_le.mpr hlt]
        · simp [version_check_fails, hlt, EXIT_CHECK_VERSION_FAILED]
        · simp [version_check_fails, hlt, EXIT_CHECK_VERSION_FAILED]
        · injection hq with hq
          rw [hq] at hlt
          exact absurd hlt (lt_irrefl _)
        · simp [version_check_fails, hlt, EXIT_CHECK_VERSION_FAILED]
      · have hge : MIN_AVS_VERSION ≤ q := not_lt.mp hlt
        refine ⟨?_, fun hn => ?_, fun q' hq' hlt' => ?_, fun hq => ?_,
          fun hc => ?_⟩
        · simp [version_check_fails, hlt, EXIT_SUCCESS]
          exact hge
        · exact absurd hn (by simp)
        · injection hq' with hq'
          rw [← hq'] at hlt'
          exact absurd hlt' hlt
        · simp [version_check_fails, hlt, EXIT_SUCCESS]
        · rw [detected_version, hc] at hdv
          simp at hdv

/-- Witness for C2: a run reporting version exactly 2.5 reaches the version
phase and succeeds (the boundary is inclusive). -/
theorem avs_version_acceptance_witness :
    resolves_all envBoundary = true ∧
      (check_avs_helper envBoundary).1 = EXIT_SUCCESS :=
  ⟨by decide,
   (avs_version_acceptance envBoundary rfl (by decide) (by decide)
      (by decide)).2.2.2.2.1 (by decide)⟩

/-- C3: the exit code identifies the failing phase exactly: 0 on success,
1 when the library failed to load, 2 when the path could not be
determined, 3 when an entry point was missing, 4 when the version check
failed; no other code is possible. -/
theorem avs_exit_code_table (env : ProbeEnv) :
    ((check_avs_helper env).1 = 0 ∨ (check_avs_helper env).1 = 1 ∨
      (check_avs_helper env).1 = 2 ∨ (check_avs_helper env).1 = 3 ∨
      (check_avs_helper env).1 = 4) ∧
    ((check_avs_helper env).1 = EXIT_SUCCESS ↔
      env.loadOk = true ∧ (0 < env.pathRet ∧ env.pathRet < 4096) ∧
        resolves_all env = true ∧
        version_check_fails (detected_version env) = false) ∧
    ((check_avs_helper env).1 = EXIT_LOAD_LIBRARY_FAILED ↔
      env.loadOk = false) ∧
    ((check_avs_helper env).1 = EXIT_DERTERMINE_PATH_FAILED ↔
      env.loadOk = true ∧ ¬(0 < env.pathRet ∧ env.pathRet < 4096)) ∧
    ((check_avs_helper env).1 = EXIT_RESOLVE_ENTRYPT_FAILED ↔
      env.loadOk = true ∧ (0 < env.pathRet ∧ env.pathRet < 4096) ∧
        resolves_all env = false) ∧
    ((check_avs_helper env).1 = EXIT_CHECK_VERSION_FAILED ↔
      env.loadOk = true ∧ (0 < env.pathRet ∧ env.pathRet < 4096) ∧
        resolves_all env = true ∧
        version_check_fails (detected_version env) = true) := by
  rw [helper_eq]
  by_cases hl : env.loadOk = false
  · simp +decide [expected_code, EXIT_SUCCESS, EXIT_LOAD_LIBRARY_FAILED,
      EXIT_DERTERMINE_PATH_FAILED, EXIT_RESOLVE_ENTRYPT_FAILED,
      EXIT_CHECK_VERSION_FAILED, hl]
  · have hl' : env.loadOk = true := by simpa using hl
    by_cases hp : 0 < env.pathRet ∧ env.pathRet < 4096
    · by_cases hr : resolves_all env = true
      · by_cases hv : version_check_fails (detected_version env) = true
        · simp +decide [expected_code, EXIT_SUCCESS, EXIT_LOAD_LIBRARY_FAILED,
            EXIT_DERTERMINE_PATH_FAILED, EXIT_RESOLVE_ENTRYPT_FAILED,
            EXIT_CHECK_VERSION_FAILED, hl', hp, hr, hv]
        · have hv' : version_check_fails (detected_version env) = false := by
            simpa using hv
          simp +decide [expected_code, EXIT_SUCCESS, EXIT_LOAD_LIBRARY_FAILED,
            EXIT_DERTERMINE_PATH_FAILED, EXIT_RESOLVE_ENTRYPT_FAILED,
            EXIT_CHECK_VERSION_FAILED, hl', hp, hr, hv']
      · have hr' : resolves_all env = false := by simpa using hr
        simp +decide [expected_code, EXIT_SUCCESS, EXIT_LOAD_LIBRARY_FAILED,
          EXIT_DERTERMINE_PATH_FAILED, EXIT_RESOLVE_ENTRYPT_FAILED,
          EXIT_CHECK_VERSION_FAILED, hl', hp, hr']
    · simp +decide [expected_code, EXIT_SUCCESS, EXIT_LOAD_LIBRARY_FAILED,
        EXIT_DERTERMINE_PATH_FAILED, EXIT_RESOLVE_ENTRYPT_FAILED,
        EXIT_CHECK_VERSION_FAILED, hl', hp]

lemma rs_nil : resolvedSymbols [] = [] := rfl

lemma rs_load (l : String) (ok : Bool) (tr : List Event) :
    resolvedSymbols (Event.osLoadLibrary l ok :: tr) = resolvedSymbols tr := rfl

lemma rs_getmod (tr : List Event) :
    resolvedSymbols (Event.osGetModuleFileName :: tr) = resolvedSymbols tr := rfl

lemma rs_createfile (tr : List Event) :
    resolvedSymbols (Event.osCreateFile :: tr) = resolvedSymbols tr := rfl

lemma rs_getfinal (tr : List Event) :
    resolvedSymbols (Event.osGetFinalPathName :: tr) = resolvedSymbols tr := rfl

lemma rs_createenv (b : Bool) (tr : List Event) :
    resolvedSymbols (Event.avsCreateEnv b :: tr) = resolvedSymbols tr := rfl

lemma rs_funcexists (n : String) (tr : List Event) :
    resolvedSymbols (Event.avsFunctionExists n :: tr) = resolvedSymbols tr := rfl

lemma rs_invoke (n : String) (tr : List Event) :
    resolvedSymbols (Event.avsInvoke n :: tr) = resolvedSymbols tr := rfl

lemma rs_release (tr : List Event) :
    resolvedSymbols (Event.avsReleaseValue :: tr) = resolvedSymbols tr := rfl

lemma rs_delete (tr : List Event) :
    resolvedSymbols (Event.avsDeleteEnv :: tr) = resolvedSymbols tr := rfl

lemma rs_print (l : Line) (tr : List Event) :
    resolvedSymbols (Event.print l :: tr) = resolvedSymbols tr := rfl

lemma rs_getproc (lib n : String) (tr : List Event) :
    resolvedSymbols (Event.osGetProcAddress lib n :: tr) =
      if lib = "avisynth" then n :: resolvedSymbols tr
      else resolvedSymbols tr := by
  by_cases h : lib = "avisynth" <;>
    simp [resolvedSymbols, List.filterMap_cons, h]

lemma pem_resolvedSymbols (fmt : Nat → Option String) (c : Nat) :
    resolvedSymbols (print_error_msg fmt c) = [] := by
  unfold print_error_msg
  cases get_error_string fmt c <;> simp [rs_print, rs_nil]

lemma pre_resolvedSymbols (env : ProbeEnv) :
    resolvedSymbols (pre_events env) = [] := by
  simp only [pre_events, List.cons_append, List.nil_append, rs_load,
    rs_getmod, resolvedSymbols_append, rs_print, rs_nil,
    grf_resolvedSymbols, List.append_nil]

lemma probe_resolvedSymbols (env : ProbeEnv) :
    resolvedSymbols (probe_env_events env) = [] := by
  cases hc : env.createEnvOk <;> cases hf : env.versionFuncExists <;>
    cases he : env.invokeIsError <;> cases hfl : env.invokeIsFloat <;>
    cases hr : env.symbolOk "avs_release_value" <;>
    simp [probe_env_events, hc, hf, he, hfl, hr, rs_createenv,
      rs_funcexists, rs_invoke, rs_release, rs_delete, rs_nil]

lemma sym_resolvedSymbols_ok (env : ProbeEnv) (names : List String)
    (h : ∀ n ∈ names, env.symbolOk n = true) :
    resolvedSymbols (sym_events env names) = names := by
  induction names with
  | nil => simp [sym_events, rs_nil]
  | cons n rest ih =>
      have hn : env.symbolOk n = true := h n (by simp)
      simp [sym_events, init_events, hn, rs_getproc,
        ih fun m hm => h m (by simp [hm])]

lemma sym_resolvedSymbols_first_fail (env : ProbeEnv) (pre : List String)
    (n : String) (post : List String)
    (hpre : ∀ m ∈ pre, env.symbolOk m = true)
    (hn : env.symbolOk n = false) :
    resolvedSymbols (sym_events env (pre ++ n :: post)) = pre ++ [n] := by
  induction pre with
  | nil =>
      simp [sym_events, init_events, hn, rs_getproc, rs_print, rs_nil,
        resolvedSymbols_append, pem_resolvedSymbols]
  | cons m rest ih =>
      have hm : env.symbolOk m = true := hpre m (by simp)
      simp [sym_events, init_events, hm, rs_getproc,
        ih fun x hx => hpre x (by simp [hx])]

/-- C4: the probe resolves the five entry points by exact name in a fixed
order, and whichever of the five is the first whose lookup fails is
immediately fatal: the probe exits with code 3, passes exactly the names
up to and including the failing one to the OS lookup (none of the later
ones), and never calls the environment constructor. -/
theorem avs_resolution_order_and_failure (env : ProbeEnv)
    (h1 : env.loadOk = true) (h2 : 0 < env.pathRet)
    (h3 : env.pathRet < 4096) :
    (resolves_all env = true →
      resolvedSymbols (check_avs_helper env).2 = AVS_SYMBOLS) ∧
    (∀ pre n post, AVS_SYMBOLS = pre ++ n :: post →
      (∀ m ∈ pre, env.symbolOk m = true) → env.symbolOk n = false →
        (check_avs_helper env).1 = EXIT_RESOLVE_ENTRYPT_FAILED ∧
        resolvedSymbols (check_avs_helper env).2 = pre ++ [n] ∧
        (∀ b, Event.avsCreateEnv b ∉ (check_avs_helper env).2)) := by
  constructor
  · intro hall
    have hall' : ∀ n ∈ AVS_SYMBOLS, env.symbolOk n = true := by
      simpa [resolves_all, List.all_eq_true] using hall
    rw [helper_eq]
    simp only [expected_trace]
    rw [if_neg (by simp [h1]), if_neg (not_not_intro ⟨h2, h3⟩),
      if_neg (by simp [hall])]
    split <;>
      simp [resolvedSymbols_append, pre_resolvedSymbols,
        probe_resolvedSymbols, rs_print, rs_nil,
        sym_resolvedSymbols_ok env AVS_SYMBOLS hall']
  · intro pre n post heq hpre hn
    have hnmem : n ∈ AVS_SYMBOLS := by
      rw [heq]
      exact List.mem_append_right _ (List.mem_cons_self _ _)
    have hrf : resolves_all env = false := by
      cases hra : resolves_all env with
      | false => rfl
      | true =>
          have hall := List.all_eq_true.mp
            (by simpa [resolves_all] using hra)
          rw [hall n hnmem] at hn
          exact absurd hn (by simp)
    refine ⟨?_, ?_, fun b => ?_⟩
    · rw [helper_eq]
      simp only [expected_code]
      rw [if_neg (by simp [h1]), if_neg (not_not_intro ⟨h2, h3⟩),
        if_pos hrf]
    · rw [helper_eq]
      simp only [expected_trace]
      rw [if_neg (by simp [h1]), if_neg (not_not_intro ⟨h2, h3⟩),
        if_pos hrf, heq]
      simp [resolvedSymbols_append, pre_resolvedSymbols,
        sym_resolvedSymbols_first_fail env pre n post hpre hn]
    · rw [helper_eq]
      simp only [expected_trace]
      rw [if_neg (by simp [h1]), if_neg (not_not_intro ⟨h2, h3⟩),
        if_pos hrf]
      simp [(pre_events_no_avs env).1 b,
        (sym_events_no_avs env AVS_SYMBOLS).1 b]

/-- Witness for C4: with avs_invoke the first missing symbol and everything
earlier present, the probe exits 3, tried exactly the first three names,
and never created an environment. -/
theorem avs_resolution_order_and_failure_witness :
    (check_avs_helper envInvokeMissing).1 = EXIT_RESOLVE_ENTRYPT_FAILED ∧
      resolvedSymbols (check_avs_helper envInvokeMissing).2 =
        ["avs_create_script_environment", "avs_delete_script_environment"] ++
          ["avs_invoke"] ∧
      (∀ b, Event.avsCreateEnv b ∉ (check_avs_helper envInvokeMissing).2) :=
  (avs_resolution_order_and_failure envInvokeMissing rfl (by decide)
    (by decide)).2
    ["avs_create_script_environment", "avs_delete_script_environment"]
    "avs_invoke" ["avs_function_exists", "avs_release_value"] rfl
    (by decide) (by decide)

/-- C6: when the DLL fails to load the probe exits with code 1 without
asking the OS for a module path or any symbol; the error line with the
platform code is printed, and the formatted description is printed
exactly when the OS message facility produces one. -/
theorem avs_load_failure_behaviour (env : ProbeEnv)
    (h : env.loadOk = false) :
    (check_avs_helper env).1 = EXIT_LOAD_LIBRARY_FAILED ∧
      Event.osGetModuleFileName ∉ (check_avs_helper env).2 ∧
      (∀ l n, Event.osGetProcAddress l n ∉ (check_avs_helper env).2) ∧
      Event.print (Line.errorLoadLibrary env.loadError) ∈
        (check_avs_helper env).2 ∧
      (∀ m, env.formatMessage env.loadError = some m →
        Event.print (Line.errorMsg m) ∈ (check_avs_helper env).2) ∧
      (env.formatMessage env.loadError = none →
        ∀ m, Event.print (Line.errorMsg m) ∉ (check_avs_helper env).2) := by
  rw [helper_load_fail env h]
  refine ⟨rfl, ?_, fun l n => ?_, by simp, fun m hm => ?_, fun hm m => ?_⟩
  · intro hmem
    simp only [List.cons_append, List.nil_append, List.mem_cons] at hmem
    rcases hmem with hmem | hmem | hmem
    · exact absurd hmem (by simp)
    · exact absurd hmem (by simp)
    · rcases print_error_msg_shape _ _ _ hmem with ⟨m, hm⟩
      simp at hm
  · intro hmem
    simp only [List.cons_append, List.nil_append, List.mem_cons] at hmem
    rcases hmem with hmem | hmem | hmem
    · exact absurd hmem (by simp)
    · exact absurd hmem (by simp)
    · rcases print_error_msg_shape _ _ _ hmem with ⟨m, hm⟩
      simp at hm
  · simp [print_error_msg, get_error_string, hm]
  · simp [print_error_msg, get_error_string, hm]

/-- Witness for C6: the load-failure oracle with a resolvable description
message. -/
theorem avs_load_failure_behaviour_witness :
    (check_avs_helper envLoadFail).1 = EXIT_LOAD_LIBRARY_FAILED ∧
      Event.osGetModuleFileName ∉ (check_avs_helper envLoadFail).2 ∧
      (∀ l n, Event.osGetProcAddress l n ∉ (check_avs_helper envLoadFail).2) ∧
      Event.print (Line.errorLoadLibrary envLoadFail.loadError) ∈
        (check_avs_helper envLoadFail).2 ∧
      (∀ m, envLoadFail.formatMessage envLoadFail.loadError = some m →
        Event.print (Line.errorMsg m) ∈ (check_avs_helper envLoadFail).2) ∧
      (envLoadFail.formatMessage envLoadFail.loadError = none →
        ∀ m, Event.print (Line.errorMsg m) ∉ (check_avs_helper envLoadFail).2) :=
  avs_load_failure_behaviour envLoadFail rfl

/-- C7: when the canonicalization step is unavailable or fails, the printed
Avisynth_DLLPath line carries the raw module path, the step surfaces no
diagnostic line of its own, and the probe result is unaffected by the
canonicalization oracle. -/
theorem avs_canonicalization_fallback (env : ProbeEnv)
    (h1 : env.loadOk = true) (h2 : 0 < env.pathRet)
    (h3 : env.pathRet < 4096)
    (hfail : (get_real_filename env.realPathEnv env.modulePath 4096).1 =
      none) :
    Event.print (Line.dllPath env.modulePath) ∈ (check_avs_helper env).2 ∧
      (∀ e ∈ (get_real_filename env.realPathEnv env.modulePath 4096).2,
        e.isPrint = false) ∧
      (∀ rp, (check_avs_helper { env with realPathEnv := rp }).1 =
        (check_avs_helper env).1) := by
  refine ⟨?_, fun e he => ?_, fun rp => ?_⟩
  · rw [helper_eq]
    simp only [expected_trace]
    rw [if_neg (by simp [h1]), if_neg (not_not_intro ⟨h2, h3⟩)]
    have hp : Event.print (Line.dllPath env.modulePath) ∈ pre_events env := by
      simp [pre_events, hfail]
    split
    · simp [List.mem_append, hp]
    split
    · simp [List.mem_append, hp]
    · simp [List.mem_append, hp]
  · rcases grf_events_shape _ _ _ _ he with h | h | h | h <;>
      simp [h, Event.isPrint]
  · rw [helper_eq, helper_eq]
    rfl

/-- Witness for C7: a run whose canonicalization oracle fails at the
resolve step prints the raw module path, and swapping in a succeeding
canonicalization oracle leaves the exit code unchanged. -/
theorem avs_canonicalization_fallback_witness :
    Event.print (Line.dllPath envCanonFail.modulePath) ∈
        (check_avs_helper envCanonFail).2 ∧
      (check_avs_helper { envCanonFail with realPathEnv := rpOk }).1 =
        (check_avs_helper envCanonFail).1 :=
  ⟨(avs_canonicalization_fallback envCanonFail rfl (by decide) (by decide)
      (by decide)).1,
   (avs_canonicalization_fallback envCanonFail rfl (by decide) (by decide)
      (by decide)).2.2 rpOk⟩

/-- C8: Library::getPath succeeds exactly when the handle is loaded and the
OS wrote a non-empty path strictly shorter than the buffer; a null
handle or a truncated write (return value at or above the buffer
length, or zero) fails. -/
theorem library_getPath_success_iff (lib : Library) (ret err len : Nat) :
    ((lib.getPath ret err len).2.1 = true) ↔
      (lib.loaded = true ∧ 0 < ret ∧ ret < len) := by
  cases hl : lib.loaded <;>
    simp [Library.getPath, Library.isNull, hl]

/-- C9: on a null library handle, resolve and getPath fail immediately,
perform no OS lookup (no trace event), and overwrite the stored error
code with ERROR_INVALID_FUNCTION. -/
theorem library_null_handle_ops (lib : Library) (sym : String)
    (osOk : Bool) (osErr ret perr len : Nat) (h : lib.loaded = false) :
    lib.resolve sym osOk osErr =
        ({ lib with error := ERROR_INVALID_FUNCTION }, false, []) ∧
      lib.getPath ret perr len =
        ({ lib with error := ERROR_INVALID_FUNCTION }, false, []) := by
  simp [Library.resolve, Library.getPath, Library.isNull, h]

/-- Witness for C9: a concrete failed-load handle. -/
theorem library_null_handle_ops_witness :
    libNull.resolve "avs_invoke" true 0 =
        ({ libNull with error := ERROR_INVALID_FUNCTION }, false, []) ∧
      libNull.getPath 10 0 4096 =
        ({ libNull with error := ERROR_INVALID_FUNCTION }, false, []) :=
  library_null_handle_ops libNull "avs_invoke" true 0 10 0 4096 rfl

/-- C1 counterevidence: the driver prints the "available" summary exactly
when the probe FAILED (nonzero result) and the "*NOT* available"
summary when it succeeded, because the source tests `if(result)`
instead of `if(result == EXIT_SUCCESS)`: shown here on a concrete
failing run (load failure, exit code 1) and a concrete successful run
(exit code 0). -/
theorem avs_summary_line_inverted :
    (check_avs envLoadFail).1 = EXIT_LOAD_LIBRARY_FAILED ∧
      Event.print Line.summaryAvailable ∈ (check_avs envLoadFail).2 ∧
      Event.print Line.summaryNotAvailable ∉ (check_avs envLoadFail).2 ∧
      (check_avs envOk).1 = EXIT_SUCCESS ∧
      Event.print Line.summaryNotAvailable ∈ (check_avs envOk).2 ∧
      Event.print Line.summaryAvailable ∉ (check_avs envOk).2 := by
  refine ⟨by decide, by decide, by decide, by decide, by decide, by decide⟩
